import Mathlib

/-!
Verification of `GitQuick` (`src/generate-jira-comment.py`) against its
natural-language specification.

The script is embedded shallowly:

* Python string helpers (`str.split('\n')`, `'\n'.join`, `str.lower()`,
  `str.strip()`, substring membership `in`, `str.startswith`) are modelled
  as executable functions on `List Char` / `String`.
* Pure functions of the script (`clean_ai_response`, `build_natural_prompt`)
  become Lean functions translated line by line from the source.
* Effectful calls (HTTP requests via `requests.post`, subprocesses via
  `subprocess.run`, environment/keychain lookups) are modelled by outcome
  oracles: each external call site receives the outcome the outside world
  would produce, and the embedded function computes exactly what the Python
  control flow does with that outcome.  A Python function that can let an
  exception escape is given an `Except` codomain; one that catches all its
  exceptions returns `Option`.
* Writes to `stderr` (`print_color`) are pure logging and are dropped.
-/

namespace GitQuick

/-! ### Python string primitives -/

/-- The ASCII whitespace characters removed by Python's `str.strip()`. -/
def isPySpace (c : Char) : Bool :=
  c = ' ' || c = '\t' || c = '\n' || c = '\r' || c = '\x0b' || c = '\x0c'

/-- Python `str.lower()` (ASCII case folding; all phrase constants in the
script are ASCII). -/
def pyLower (cs : List Char) : List Char := cs.map Char.toLower

/-- Python `str.strip()` on a character list. -/
def pyStrip (cs : List Char) : List Char :=
  ((cs.dropWhile isPySpace).reverse.dropWhile isPySpace).reverse

/-- Python `str.strip()` on a string. -/
def pyStripStr (s : String) : String := String.mk (pyStrip s.data)

/-- Python substring membership `pat in hay`. -/
def containsSub (pat : List Char) : List Char → Bool
  | [] => pat.isEmpty
  | c :: t => pat.isPrefixOf (c :: t) || containsSub pat t

/-- Python `text.split('\n')` on a character list: splits at every newline,
keeping empty pieces (`''.split('\n') == ['']`, `'a\n'.split('\n') == ['a','']`). -/
def splitNlChars : List Char → List (List Char)
  | [] => [[]]
  | c :: cs =>
    if c = '\n' then [] :: splitNlChars cs
    else
      match splitNlChars cs with
      | [] => [[c]]
      | l :: ls => (c :: l) :: ls

/-- Python `'\n'.join(pieces)` on character lists. -/
def joinNlChars : List (List Char) → List Char
  | [] => []
  | [p] => p
  | p :: q :: ps => p ++ '\n' :: joinNlChars (q :: ps)

/-- Python `text.split('\n')`. -/
def pySplitNl (s : String) : List String := (splitNlChars s.data).map String.mk

/-- Python `'\n'.join(lines)`. -/
def joinNl (ls : List String) : String := String.mk (joinNlChars (ls.map String.data))

/-! ### Basic lemmas about the string primitives -/

theorem splitNlChars_ne_nil (cs : List Char) : splitNlChars cs ≠ [] := by
  induction cs with
  | nil => simp [splitNlChars]
  | cons c cs ih =>
    simp only [splitNlChars]
    split
    · simp
    · split
      · simp
      · simp

theorem not_nl_mem_of_mem_splitNlChars (cs : List Char) :
    ∀ p ∈ splitNlChars cs, '\n' ∉ p := by
  induction cs with
  | nil =>
    intro p hp
    simp [splitNlChars] at hp
    simp [hp]
  | cons c cs ih =>
    intro p hp
    simp only [splitNlChars] at hp
    by_cases hc : c = '\n'
    · simp [hc] at hp
      rcases hp with h | h
      · simp [h]
      · exact ih p h
    · simp only [if_neg hc] at hp
      cases hrec : splitNlChars cs with
      | nil => exact absurd hrec (splitNlChars_ne_nil cs)
      | cons l ls =>
        rw [hrec] at hp
        simp at hp
        rcases hp with h | h
        · subst h
          intro hmem
          rcases List.mem_cons.mp hmem with h' | h'
          · exact hc h'.symm
          · exact ih l (by rw [hrec]; exact List.mem_cons_self _ _) h'
        · exact ih p (by rw [hrec]; exact List.mem_cons_of_mem _ h)

theorem splitNlChars_of_not_mem (p : List Char) (h : '\n' ∉ p) :
    splitNlChars p = [p] := by
  induction p with
  | nil => rfl
  | cons c cs ih =>
    have hc : ¬ c = '\n' := fun hc => h (hc ▸ List.mem_cons_self _ _)
    have hcs : '\n' ∉ cs := fun hm => h (List.mem_cons_of_mem _ hm)
    simp only [splitNlChars, if_neg hc, ih hcs]

theorem splitNlChars_append_nl (p rest : List Char) (h : '\n' ∉ p) :
    splitNlChars (p ++ '\n' :: rest) = p :: splitNlChars rest := by
  induction p with
  | nil => simp [splitNlChars]
  | cons c cs ih =>
    have hc : ¬ c = '\n' := fun hc => h (hc ▸ List.mem_cons_self _ _)
    have hcs : '\n' ∉ cs := fun hm => h (List.mem_cons_of_mem _ hm)
    simp only [List.cons_append, splitNlChars, if_neg hc, List.append_eq, ih hcs]

theorem splitNlChars_joinNlChars (ps : List (List Char)) (hne : ps ≠ [])
    (h : ∀ p ∈ ps, '\n' ∉ p) : splitNlChars (joinNlChars ps) = ps := by
  induction ps with
  | nil => exact absurd rfl hne
  | cons p qs ih =>
    cases qs with
    | nil =>
      simp only [joinNlChars]
      exact splitNlChars_of_not_mem p (h p (List.mem_cons_self _ _))
    | cons q rs =>
      simp only [joinNlChars]
      rw [splitNlChars_append_nl _ _ (h p (List.mem_cons_self _ _))]
      rw [ih (by simp) (fun x hx => h x (List.mem_cons_of_mem _ hx))]

theorem string_mk_data (s : String) : String.mk s.data = s := rfl

theorem pySplitNl_joinNl (ls : List String) (hne : ls ≠ [])
    (h : ∀ l ∈ ls, '\n' ∉ l.data) : pySplitNl (joinNl ls) = ls := by
  unfold pySplitNl joinNl
  rw [string_mk_data]
  rw [splitNlChars_joinNlChars (ls.map String.data) (by simpa using hne)
    (by intro p hp; rcases List.mem_map.mp hp with ⟨l, hl, rfl⟩; exact h l hl)]
  rw [List.map_map]
  have : (String.mk ∘ String.data) = id := by
    funext s; rfl
  rw [this, List.map_id]

theorem mem_pySplitNl_no_nl (s : String) : ∀ l ∈ pySplitNl s, '\n' ∉ l.data := by
  intro l hl
  unfold pySplitNl at hl
  rcases List.mem_map.mp hl with ⟨p, hp, rfl⟩
  exact not_nl_mem_of_mem_splitNlChars s.data p hp

/-! ### Response sanitizer (`clean_ai_response`, source lines 277-326) -/

/-- The fixed meta-commentary lead-in phrases (`meta_patterns`, source
lines 286-296). -/
def meta_patterns : List String :=
  ["here\x27s the comment",
   "here is the comment",
   "the comment is",
   "i\x27ve generated",
   "i\x27ve created",
   "i\x27ve written",
   "generated comment",
   "here\x27s what i",
   "let me write"]

/-- The fixed comment-opening phrases scanned for (source line 313). -/
def comment_start_phrases : List String :=
  ["hey team", "hi team", "done with", "just finished", "completed"]

/-- Source line 313: does the lower-cased, trimmed line contain one of the
comment-opening phrases? -/
def hasStartPhrase (line : String) : Bool :=
  comment_start_phrases.any fun st => containsSub st.data (pyStrip (pyLower line.data))

/-- The `for line in lines` loop of source lines 309-317: drop lines until
the first one satisfying `hasStartPhrase`, keep it and everything after. -/
def scanLines : List String → List String
  | [] => []
  | l :: ls => if hasStartPhrase l then l :: ls else scanLines ls

/-- Source lines 299-301: `text.lower().startswith(pattern)` for one of the
`meta_patterns`. -/
def startsWithMetaPattern (text : String) : Bool :=
  meta_patterns.any fun p => p.data.isPrefixOf (pyLower text.data)

/-- `clean_ai_response` (source lines 277-326), translated line by line:
empty text is returned as is; if the text starts with a meta-commentary
pattern the line scan runs and, when it finds a start line, the remaining
lines are joined and returned, otherwise the original text is returned;
text not starting with a meta pattern is returned unchanged.
(The warnings printed to stderr are dropped.) -/
def clean_ai_response (text : String) : String :=
  if text = "" then text
  else if startsWithMetaPattern text then
    match scanLines (pySplitNl text) with
    | [] => text
    | l :: ls => joinNl (l :: ls)
  else text

theorem scanLines_eq_dropWhile (ls : List String) :
    scanLines ls = ls.dropWhile fun l => !hasStartPhrase l := by
  induction ls with
  | nil => rfl
  | cons l ls ih =>
    simp only [scanLines, List.dropWhile_cons]
    by_cases h : hasStartPhrase l <;> simp [h, ih]

theorem mem_of_mem_scanLines (ls : List String) : ∀ x ∈ scanLines ls, x ∈ ls := by
  induction ls with
  | nil => intro x hx; simp [scanLines] at hx
  | cons l ls ih =>
    intro x hx
    simp only [scanLines] at hx
    by_cases h : hasStartPhrase l
    · simp [h] at hx
      rcases hx with h' | h'
      · simp [h']
      · exact List.mem_cons_of_mem _ h'
    · simp [h] at hx
      exact List.mem_cons_of_mem _ (ih x hx)

theorem hasStartPhrase_of_scanLines_cons (ls : List String) (l : String)
    (rest : List String) (h : scanLines ls = l :: rest) : hasStartPhrase l = true := by
  induction ls with
  | nil => simp [scanLines] at h
  | cons x xs ih =>
    simp only [scanLines] at h
    by_cases hx : hasStartPhrase x
    · simp [hx] at h
      rw [← h.1]
      exact hx
    · simp [hx] at h
      exact ih h

theorem scanLines_of_hasStartPhrase (l : String) (ls : List String)
    (h : hasStartPhrase l = true) : scanLines (l :: ls) = l :: ls := by
  simp [scanLines, h]

theorem ne_empty_of_data_ne_nil (s : String) (h : s.data ≠ []) : s ≠ "" :=
  fun hs => h (by rw [hs])

theorem data_ne_nil_of_hasStartPhrase (l : String) (h : hasStartPhrase l = true) :
    l.data ≠ [] := by
  intro hd
  obtain ⟨cs⟩ := l
  have hcs : cs = [] := hd
  subst hcs
  exact absurd h (by decide)

theorem joinNl_cons_ne_empty (l : String) (ls : List String) (h : l.data ≠ []) :
    joinNl (l :: ls) ≠ "" := by
  apply ne_empty_of_data_ne_nil
  cases ls with
  | nil => simpa [joinNl, joinNlChars] using h
  | cons q qs => simp [joinNl, joinNlChars]

theorem clean_of_no_meta (text : String) (hm : startsWithMetaPattern text = false) :
    clean_ai_response text = text := by
  unfold clean_ai_response
  by_cases hx : text = ""
  · rw [if_pos hx]
  · rw [if_neg hx, hm]
    simp

theorem clean_of_scan_nil (text : String)
    (hscan : scanLines (pySplitNl text) = []) : clean_ai_response text = text := by
  unfold clean_ai_response
  by_cases hx : text = ""
  · rw [if_pos hx]
  · rw [if_neg hx]
    by_cases hm : startsWithMetaPattern text
    · rw [hm, if_pos rfl, hscan]
    · simp [hm]

theorem clean_of_scan_cons (text : String) (hx : text ≠ "")
    (hm : startsWithMetaPattern text = true) (l : String) (ls : List String)
    (hscan : scanLines (pySplitNl text) = l :: ls) :
    clean_ai_response text = joinNl (l :: ls) := by
  unfold clean_ai_response
  rw [if_neg hx, hm, if_pos rfl, hscan]

theorem clean_ne_empty_of_ne_empty (s : String) (h : s ≠ "") :
    clean_ai_response s ≠ "" := by
  by_cases hm : startsWithMetaPattern s
  · cases hscan : scanLines (pySplitNl s) with
    | nil => rw [clean_of_scan_nil s hscan]; exact h
    | cons l ls =>
      rw [clean_of_scan_cons s h hm l ls hscan]
      exact joinNl_cons_ne_empty l ls
        (data_ne_nil_of_hasStartPhrase l (hasStartPhrase_of_scanLines_cons _ _ _ hscan))
  · rw [clean_of_no_meta s (by simpa using hm)]; exact h

/-- C5: the sanitizer `clean_ai_response` is idempotent: for every input
string `x`, `clean (clean x) = clean x`. -/
theorem c5_clean_ai_response_idempotent (x : String) :
    clean_ai_response (clean_ai_response x) = clean_ai_response x := by
  by_cases hx : x = ""
  · subst hx; rfl
  by_cases hm : startsWithMetaPattern x
  · cases hscan : scanLines (pySplitNl x) with
    | nil =>
      rw [clean_of_scan_nil x hscan, clean_of_scan_nil x hscan]
    | cons l ls =>
      have hcx := clean_of_scan_cons x hx hm l ls hscan
      have hstart : hasStartPhrase l = true :=
        hasStartPhrase_of_scanLines_cons _ _ _ hscan
      have hnl : ∀ p ∈ (l :: ls), '\n' ∉ p.data := fun p hp =>
        mem_pySplitNl_no_nl x p
          (mem_of_mem_scanLines _ p (by rw [hscan]; exact hp))
      have hsplit : pySplitNl (joinNl (l :: ls)) = l :: ls :=
        pySplitNl_joinNl _ (by simp) hnl
      have hyne : joinNl (l :: ls) ≠ "" :=
        joinNl_cons_ne_empty l ls (data_ne_nil_of_hasStartPhrase l hstart)
      rw [hcx]
      by_cases hm2 : startsWithMetaPattern (joinNl (l :: ls))
      · rw [clean_of_scan_cons _ hyne hm2 l ls
          (by rw [hsplit]; exact scanLines_of_hasStartPhrase l ls hstart)]
      · exact clean_of_no_meta _ (by simpa using hm2)
  · rw [clean_of_no_meta x (by simpa using hm), clean_of_no_meta x (by simpa using hm)]

/-- C7: for every input text that does not start (case-insensitively) with a
meta-commentary lead-in phrase, `clean_ai_response` returns the input
unchanged, even when such a phrase (or a comment-opening phrase) occurs
later in the text. -/
theorem c7_clean_unchanged_without_meta_leadin (text : String)
    (h : startsWithMetaPattern text = false) : clean_ai_response text = text :=
  clean_of_no_meta text h

/-- Witness for C7 at a concrete input containing both a meta phrase and a
comment-opening phrase mid-text. -/
theorem c7_clean_unchanged_without_meta_leadin_witness :
    startsWithMetaPattern "Quick update. Here\x27s the comment thread, hey team." = false ∧
    clean_ai_response "Quick update. Here\x27s the comment thread, hey team." =
      "Quick update. Here\x27s the comment thread, hey team." :=
  ⟨by decide,
   c7_clean_unchanged_without_meta_leadin
     "Quick update. Here\x27s the comment thread, hey team." (by decide)⟩

/-- C6: when the text starts with a meta-commentary lead-in phrase, the
sanitizer splits it into lines and looks for the first line whose lower-cased
trimmed content contains a comment-opening phrase; if such a line exists it
returns that line and all following lines joined by newlines, and if no such
line exists anywhere it returns the original text unchanged. -/
theorem c6_clean_scan_behavior (text : String)
    (hm : startsWithMetaPattern text = true) :
    ((∃ l ∈ pySplitNl text, hasStartPhrase l = true) →
        clean_ai_response text =
          joinNl ((pySplitNl text).dropWhile fun l => !hasStartPhrase l)) ∧
    ((∀ l ∈ pySplitNl text, hasStartPhrase l = false) →
        clean_ai_response text = text) := by
  have hx : text ≠ "" := by
    intro h
    subst h
    exact absurd hm (by decide)
  constructor
  · rintro ⟨l0, hl0, hstart0⟩
    rw [← scanLines_eq_dropWhile]
    cases hscan : scanLines (pySplitNl text) with
    | nil =>
      exfalso
      rw [scanLines_eq_dropWhile] at hscan
      have hall := List.dropWhile_eq_nil_iff.mp hscan
      have := hall l0 hl0
      simp [hstart0] at this
    | cons l ls =>
      rw [clean_of_scan_cons text hx hm l ls hscan]
  · intro hall
    apply clean_of_scan_nil
    rw [scanLines_eq_dropWhile]
    exact List.dropWhile_eq_nil_iff.mpr fun x hxm => by simp [hall x hxm]

/-- Witness for C6 at a concrete contaminated response. -/
theorem c6_clean_scan_behavior_witness :
    clean_ai_response "Here\x27s the comment:\nHey team, I finished the login fix.\nDetails in the commit." =
      "Hey team, I finished the login fix.\nDetails in the commit." := by
  have h := (c6_clean_scan_behavior
      "Here\x27s the comment:\nHey team, I finished the login fix.\nDetails in the commit."
      (by decide)).1
    ⟨"Hey team, I finished the login fix.", by decide, by decide⟩
  rw [h]
  decide

/-! ### Credential resolvers (source lines 29-64)

`get_openai_api_key` / `get_anthropic_api_key` read an environment variable
and fall back to a `security find-generic-password` subprocess.  The
subprocess (run with `check=True`) is modelled by `KeychainOutcome`:
it can succeed with captured stdout, raise `subprocess.CalledProcessError`
(non-zero exit; the only exception the source catches), or raise any other
exception (for example `FileNotFoundError` when the `security` executable
does not exist).  Exceptions the source does not catch escape, so the
resolvers return `Except`: `.error` is a propagated Python exception. -/

inductive KeychainOutcome where
  | ok (stdout : String)
  | calledProcessError
  | otherExn (msg : String)
deriving DecidableEq

/-- The `try: subprocess.run(['security', ...], check=True) ... except
subprocess.CalledProcessError: return None` block shared by both resolvers
(source lines 36-45 and 55-64). -/
def keychain_lookup : KeychainOutcome → Except String (Option String)
  | .ok out => .ok (some (pyStripStr out))
  | .calledProcessError => .ok none
  | .otherExn m => .error m

/-- `get_openai_api_key` (source lines 29-45): the `OPENAI_API_KEY`
environment value if truthy (set and non-empty), else the keychain lookup. -/
def get_openai_api_key (envVal : Option String) (kc : KeychainOutcome) :
    Except String (Option String) :=
  match envVal with
  | some k => if k = "" then keychain_lookup kc else .ok (some k)
  | none => keychain_lookup kc

/-- `get_anthropic_api_key` (source lines 48-64): the `ANTHROPIC_API_KEY`
environment value if truthy, else the keychain lookup. -/
def get_anthropic_api_key (envVal : Option String) (kc : KeychainOutcome) :
    Except String (Option String) :=
  match envVal with
  | some k => if k = "" then keychain_lookup kc else .ok (some k)
  | none => keychain_lookup kc

/-! ### Provider adapters (source lines 67-192)

Each hosted adapter begins with a deferred `import requests` statement
(source lines 69 and 110) that executes OUTSIDE its `try` block (which
starts only at lines 71 and 112): when the requests module is missing,
that statement raises ImportError past the adapter boundary, so the hosted
adapters return `Except`, with `.error` the escaping exception.  Every
exception raised inside the `try` block is caught (`except Exception`) and
becomes `.ok none`.  For the hosted adapters the `response` outcome
carries the HTTP status code and the extracted text field of the response
envelope (`data['choices'][0]['message']['content']` resp.
`data['content'][0]['text']`); a malformed envelope (KeyError/IndexError)
or transport failure is the `exn` outcome, a `requests` timeout is the
`timeout` outcome — both arise inside the `try` block and are caught. -/

/-- Outcome of the deferred `import requests` statement at the top of each
hosted adapter (source lines 69 and 110): the module loads, or the
statement raises (`ModuleNotFoundError`) and the exception escapes the
adapter because the `try` block has not started yet. -/
inductive RequestsImport where
  | ok
  | importError (msg : String)
deriving DecidableEq

inductive HttpOutcome where
  | exn (msg : String)
  | timeout
  | response (status : Nat) (content : String)
deriving DecidableEq

/-- `generate_with_openai` (source lines 67-105): a failed `import requests`
raises out of the adapter; otherwise, on HTTP 200 return the stripped
content, on any other status print an error and return `None`, and on any
exception raised inside the `try` block return `None`. -/
def generate_with_openai (imp : RequestsImport) (h : HttpOutcome) :
    Except String (Option String) :=
  match imp with
  | .importError m => .error m
  | .ok =>
    match h with
    | .exn _ => .ok none
    | .timeout => .ok none
    | .response status content =>
      if status = 200 then .ok (some (pyStripStr content)) else .ok none

/-- `generate_with_claude` (source lines 108-144): same shape as the OpenAI
adapter (including the deferred `import requests` at line 110, outside the
`try` block) with the Anthropic endpoint and envelope. -/
def generate_with_claude (imp : RequestsImport) (h : HttpOutcome) :
    Except String (Option String) :=
  match imp with
  | .importError m => .error m
  | .ok =>
    match h with
    | .exn _ => .ok none
    | .timeout => .ok none
    | .response status content =>
      if status = 200 then .ok (some (pyStripStr content)) else .ok none

/-- Outcome of the cursor-agent invocation (source lines 147-192):
`notFound` = `which` failed and no conventional install path held an
executable file; `timeout` = `subprocess.TimeoutExpired`; `exn` = any other
exception; `ran` = the `cursor-agent chat` subprocess completed. -/
inductive CursorOutcome where
  | notFound
  | timeout
  | exn (msg : String)
  | ran (exitCode : Int) (stdout : String) (stderr : String)
deriving DecidableEq

/-- `generate_with_cursor` (source lines 147-192): absence when the
executable is missing, on timeout, on any exception, on non-zero exit, or
on empty (stripped) stdout; otherwise the stripped stdout. -/
def generate_with_cursor : CursorOutcome → Option String
  | .notFound => none
  | .timeout => none
  | .exn _ => none
  | .ran code out _ =>
    if code = 0 ∧ pyStripStr out ≠ "" then some (pyStripStr out) else none

/-! ### External call-site configuration

The timeout each external call site passes, read off the source. -/

structure HttpCallConfig where
  url : String
  timeoutSeconds : Option Nat
deriving DecidableEq

structure ProcCallConfig where
  argv : List String
  timeoutSeconds : Option Nat
deriving DecidableEq

/-- The `requests.post` call of `generate_with_openai` (source lines 72-94):
`timeout=60`. -/
def openaiRequestConfig : HttpCallConfig :=
  ⟨"https://api.openai.com/v1/chat/completions", some 60⟩

/-- The `requests.post` call of `generate_with_claude` (source lines
113-133): `timeout=60`. -/
def claudeRequestConfig : HttpCallConfig :=
  ⟨"https://api.anthropic.com/v1/messages", some 60⟩

/-- The `subprocess.run(['which', 'cursor-agent'], ...)` probe of
`generate_with_cursor` (source line 151): no `timeout` argument is passed. -/
def cursorWhichConfig : ProcCallConfig := ⟨["which", "cursor-agent"], none⟩

/-- The `subprocess.run([cursor_agent, 'chat'], ..., timeout=60)` call of
`generate_with_cursor` (source lines 172-178), for the discovered
executable path. -/
def cursorChatConfig (agentPath : String) : ProcCallConfig :=
  ⟨[agentPath, "chat"], some 60⟩

/-- All subprocess call sites of the provider adapters (source lines 151 and
172-178), for the discovered cursor-agent path. -/
def adapterProcCalls (agentPath : String) : List ProcCallConfig :=
  [cursorWhichConfig, cursorChatConfig agentPath]

/-- All HTTP call sites of the provider adapters (source lines 72 and 113). -/
def adapterHttpCalls : List HttpCallConfig :=
  [openaiRequestConfig, claudeRequestConfig]

/-- Python truthiness of an `Optional[str]` value (`if api_key:`,
`if comment:`): `None` and the empty string are falsy. -/
def truthyOpt : Option String → Bool
  | none => false
  | some s => s != ""

/-- Counterexample to C2 as stated, on two counts.  First, the claim says
every failure mode, including empty output, is converted to the absence
result `None`; but on HTTP 200 with empty content the OpenAI adapter
returns the stripped content itself — the empty string, not `None` (source
line 98).  Second, the claim says no adapter ever raises past its boundary;
but the deferred `import requests` (source line 69) executes before the
`try` block begins (line 71), so a missing requests module raises
ImportError out of the adapter. -/
theorem c2_counterexample_adapter_boundary :
    generate_with_openai RequestsImport.ok (HttpOutcome.response 200 "") =
      .ok (some "") ∧
    Except.ok (some "") ≠ (.ok none : Except String (Option String)) ∧
    generate_with_openai
        (RequestsImport.importError "No module named requests")
        (HttpOutcome.response 200 "Hey team, done.") =
      .error "No module named requests" := ⟨rfl, by simp, rfl⟩

/-- C2 amended: every failure mode arising inside an adapter's `try` block
— non-success HTTP status, transport exceptions, timeouts, a missing
executable, a non-zero exit and (for the cursor adapter) empty output — is
caught and converted to `None`; but (a) the hosted adapters return the
stripped text of an HTTP 200 response even when it is empty, so empty
hosted output yields `some ""` rather than `None`, and (b) the deferred
`import requests` executes outside the `try` block, so when the requests
module is missing the hosted adapters raise ImportError past their
boundary. -/
theorem c2_adapters_convert_failures_to_none :
    (∀ m, generate_with_openai .ok (.exn m) = .ok none) ∧
    generate_with_openai .ok .timeout = .ok none ∧
    (∀ s c, s ≠ 200 → generate_with_openai .ok (.response s c) = .ok none) ∧
    (∀ m, generate_with_claude .ok (.exn m) = .ok none) ∧
    generate_with_claude .ok .timeout = .ok none ∧
    (∀ s c, s ≠ 200 → generate_with_claude .ok (.response s c) = .ok none) ∧
    generate_with_cursor .notFound = none ∧
    generate_with_cursor .timeout = none ∧
    (∀ m, generate_with_cursor (.exn m) = none) ∧
    (∀ ec out err, ec ≠ 0 → generate_with_cursor (.ran ec out err) = none) ∧
    (∀ ec out err, pyStripStr out = "" →
        generate_with_cursor (.ran ec out err) = none) ∧
    (∀ c, generate_with_openai .ok (.response 200 c) = .ok (some (pyStripStr c))) ∧
    (∀ m h, generate_with_openai (.importError m) h = .error m) ∧
    (∀ m h, generate_with_claude (.importError m) h = .error m) := by
  refine ⟨fun m => rfl, rfl, fun s c hs => ?_, fun m => rfl, rfl,
    fun s c hs => ?_, rfl, rfl, fun m => rfl,
    fun ec out err hec => ?_, fun ec out err hout => ?_, fun c => ?_,
    fun m h => rfl, fun m h => rfl⟩
  · simp [generate_with_openai, hs]
  · simp [generate_with_claude, hs]
  · simp [generate_with_cursor, hec]
  · simp [generate_with_cursor, hout]
  · simp [generate_with_openai]

/-- Witness for the amended C2 at concrete failing outcomes. -/
theorem c2_adapters_convert_failures_to_none_witness :
    generate_with_openai RequestsImport.ok (HttpOutcome.response 404 "missing") =
      .ok none ∧
    generate_with_cursor (CursorOutcome.ran 1 "partial" "boom") = none := by
  obtain ⟨-, -, h3, -, -, -, -, -, -, h10, -, -, -, -⟩ :=
    c2_adapters_convert_failures_to_none
  exact ⟨h3 404 "missing" (by decide), h10 1 "partial" "boom" (by decide)⟩

/-- Counterexample to C3 as stated: the claim says the credential resolvers
return `None` on any lookup error of any kind without letting any exception
propagate; but the source catches only `subprocess.CalledProcessError`
(source lines 44 and 63), so any other lookup exception — for example a
`FileNotFoundError` because the `security` executable does not exist —
propagates out of the resolver. -/
theorem c3_counterexample_other_exception_propagates :
    get_openai_api_key none (KeychainOutcome.otherExn "FileNotFoundError") =
      .error "FileNotFoundError" ∧
    get_anthropic_api_key none (KeychainOutcome.otherExn "FileNotFoundError") =
      .error "FileNotFoundError" := ⟨rfl, rfl⟩

/-- C3 amended: each resolver returns the environment value when it is set
and non-empty, otherwise the stripped keychain value; when the keychain
subprocess exits non-zero (`CalledProcessError`) it returns `None`; any
other keychain exception propagates.  Both resolvers behave identically. -/
theorem c3_credential_resolvers (envVal : Option String) (kc : KeychainOutcome) :
    (∀ k, envVal = some k → k ≠ "" →
        get_openai_api_key envVal kc = .ok (some k)) ∧
    (truthyOpt envVal = false → ∀ out, kc = .ok out →
        get_openai_api_key envVal kc = .ok (some (pyStripStr out))) ∧
    (truthyOpt envVal = false → kc = .calledProcessError →
        get_openai_api_key envVal kc = .ok none) ∧
    (truthyOpt envVal = false → ∀ m, kc = .otherExn m →
        get_openai_api_key envVal kc = .error m) ∧
    get_anthropic_api_key envVal kc = get_openai_api_key envVal kc := by
  refine ⟨fun k hk hne => ?_, fun htr out hkc => ?_, fun htr hkc => ?_,
    fun htr m hkc => ?_, ?_⟩
  · subst hk; simp [get_openai_api_key, hne]
  · cases envVal with
    | none => subst hkc; rfl
    | some k =>
      simp [truthyOpt] at htr
      subst htr; subst hkc; rfl
  · cases envVal with
    | none => subst hkc; rfl
    | some k =>
      simp [truthyOpt] at htr
      subst htr; subst hkc; rfl
  · cases envVal with
    | none => subst hkc; rfl
    | some k =>
      simp [truthyOpt] at htr
      subst htr; subst hkc; rfl
  · cases envVal with
    | none => rfl
    | some k => rfl

/-- Witness for the amended C3 at a concrete environment value. -/
theorem c3_credential_resolvers_witness :
    get_openai_api_key (some "sk-live-key") KeychainOutcome.calledProcessError =
      .ok (some "sk-live-key") := by
  obtain ⟨h1, -, -, -, -⟩ :=
    c3_credential_resolvers (some "sk-live-key") KeychainOutcome.calledProcessError
  exact h1 "sk-live-key" rfl (by decide)

/-- Counterexample to C8 as stated: the claim says every subprocess
invocation made by the provider adapters specifies an explicit timeout of
60 time units, but the `which cursor-agent` probe (source line 151) passes
no timeout at all. -/
theorem c8_counterexample_which_has_no_timeout :
    cursorWhichConfig ∈ adapterProcCalls "cursor-agent" ∧
    cursorWhichConfig.timeoutSeconds = none := by
  constructor
  · simp [adapterProcCalls]
  · rfl

/-- C8 amended: both hosted HTTP requests and the cursor-agent `chat`
subprocess specify an explicit `timeout=60`, while the `which cursor-agent`
discovery subprocess passes no timeout; no global timeout wraps the
orchestration (the orchestrator below has no timeout mechanism at all). -/
theorem c8_call_site_timeouts (agentPath : String) :
    openaiRequestConfig.timeoutSeconds = some 60 ∧
    claudeRequestConfig.timeoutSeconds = some 60 ∧
    (cursorChatConfig agentPath).timeoutSeconds = some 60 ∧
    cursorWhichConfig.timeoutSeconds = none :=
  ⟨rfl, rfl, rfl, rfl⟩

/-! ### Fallback orchestrator (`generate_comment`, source lines 329-361)

The providers in the fixed priority order of the source. -/

inductive Provider where
  | openai
  | claude
  | cursor
deriving DecidableEq

/-- One run's world: the environment/keychain outcomes seen by the two
credential resolvers and the call outcomes of the three adapters (the
prompt is built once and passed to every adapter, so the adapters'
outcomes are single values per run). -/
structure World where
  openaiEnv : Option String
  openaiKeychain : KeychainOutcome
  anthropicEnv : Option String
  anthropicKeychain : KeychainOutcome
  requestsImport : RequestsImport
  openaiHttp : HttpOutcome
  claudeHttp : HttpOutcome
  cursorRun : CursorOutcome
deriving DecidableEq

/-- The raw (unsanitized) value of the Python `comment` variable when a
provider's adapter call returns normally in world `w`; for a hosted
adapter whose deferred `import requests` raises, no value is produced and
this is `none` (the orchestrator run itself ends in `.error` then, see
`generateCommentTrace`). -/
def rawOutput (w : World) : Provider → Option String
  | .openai =>
    match generate_with_openai w.requestsImport w.openaiHttp with
    | .ok r => r
    | .error _ => none
  | .claude =>
    match generate_with_claude w.requestsImport w.claudeHttp with
    | .ok r => r
    | .error _ => none
  | .cursor => generate_with_cursor w.cursorRun

/-- The `comment = generate_with_X(...); if comment: return
clean_ai_response(comment)` step of the orchestrator (source lines 338-340,
346-348, 352-354): `some` of the sanitized comment when the adapter result
is truthy, `none` (fall through to the next provider) otherwise. -/
def tryProvider (result : Option String) : Option String :=
  match result with
  | some c => if c = "" then none else some (clean_ai_response c)
  | none => none

/-- The cursor leg of `generate_comment` (source lines 350-361): the cursor
adapter is always invoked (it needs no credential); total exhaustion
returns `None` (remediation hints go to stderr and are dropped). -/
def cursorStage (w : World) : Except String (Option String) × List Provider :=
  match tryProvider (generate_with_cursor w.cursorRun) with
  | some ans => (.ok (some ans), [.cursor])
  | none => (.ok none, [.cursor])

/-- The Claude leg of `generate_comment` (source lines 343-348): resolve the
Anthropic key (a resolver exception propagates), skip Claude when the key
is not truthy, otherwise invoke it — an ImportError raised by the adapter
propagates out of `generate_comment` — and stop on a truthy result. -/
def claudeStage (w : World) : Except String (Option String) × List Provider :=
  match get_anthropic_api_key w.anthropicEnv w.anthropicKeychain with
  | .error e => (.error e, [])
  | .ok akey =>
    if truthyOpt akey then
      match generate_with_claude w.requestsImport w.claudeHttp with
      | .error e => (.error e, [.claude])
      | .ok res =>
        match tryProvider res with
        | some ans => (.ok (some ans), [.claude])
        | none => ((cursorStage w).1, .claude :: (cursorStage w).2)
    else cursorStage w

/-- `generate_comment` (source lines 329-361) instrumented with the list of
providers whose adapter is invoked, in invocation order.  The prompt is
built once (source line 332) and fed to every adapter; it does not affect
the modelled outcomes, so it does not appear here.  An exception escaping a
credential resolver or a hosted adapter (failed `import requests`)
propagates out of `generate_comment` as `.error`. -/
def generateCommentTrace (w : World) : Except String (Option String) × List Provider :=
  match get_openai_api_key w.openaiEnv w.openaiKeychain with
  | .error e => (.error e, [])
  | .ok okey =>
    if truthyOpt okey then
      match generate_with_openai w.requestsImport w.openaiHttp with
      | .error e => (.error e, [.openai])
      | .ok res =>
        match tryProvider res with
        | some ans => (.ok (some ans), [.openai])
        | none => ((claudeStage w).1, .openai :: (claudeStage w).2)
    else claudeStage w

/-- `generate_comment`'s value: `.error` is a propagated exception (from a
credential resolver or from a hosted adapter's failed `import requests`),
`.ok none` is total exhaustion, `.ok (some c)` is a generated comment. -/
def generate_comment (w : World) : Except String (Option String) :=
  (generateCommentTrace w).1

/-- Is the credential of a provider available in world `w` (truthy resolver
result)?  The cursor adapter needs no credential. -/
def credAvailable (w : World) : Provider → Bool
  | .openai =>
    match get_openai_api_key w.openaiEnv w.openaiKeychain with
    | .ok k => truthyOpt k
    | .error _ => false
  | .claude =>
    match get_anthropic_api_key w.anthropicEnv w.anthropicKeychain with
    | .ok k => truthyOpt k
    | .error _ => false
  | .cursor => true

theorem tryProvider_eq_none_iff (r : Option String) :
    tryProvider r = none ↔ truthyOpt r = false := by
  cases r with
  | none => simp [tryProvider, truthyOpt]
  | some c =>
    by_cases hc : c = "" <;> simp [tryProvider, truthyOpt, hc]

theorem tryProvider_eq_map (r : Option String) (h : truthyOpt r = true) :
    tryProvider r = r.map clean_ai_response := by
  cases r with
  | none => simp [truthyOpt] at h
  | some c =>
    simp [truthyOpt] at h
    simp [tryProvider, h]

theorem cursorStage_trace (w : World) : (cursorStage w).2 = [Provider.cursor] := by
  unfold cursorStage
  split <;> rfl

theorem cursorStage_result (w : World) :
    (cursorStage w).1 = .ok (tryProvider (generate_with_cursor w.cursorRun)) := by
  unfold cursorStage
  cases htp : tryProvider (generate_with_cursor w.cursorRun) <;> simp [htp]

theorem cursorStage_succ (w : World)
    (h : truthyOpt (rawOutput w Provider.cursor) = true) :
    (cursorStage w).2.getLast? = some Provider.cursor ∧
    (cursorStage w).1 = .ok ((rawOutput w Provider.cursor).map clean_ai_response) := by
  constructor
  · rw [cursorStage_trace w]; rfl
  · rw [cursorStage_result w]
    exact congrArg Except.ok (tryProvider_eq_map _ h)

theorem claudeStage_sublist (w : World) :
    (claudeStage w).2.Sublist [Provider.claude, Provider.cursor] := by
  unfold claudeStage
  split
  · simp
  · split
    · split
      · exact (List.nil_sublist _).cons₂ _
      · split
        · exact (List.nil_sublist _).cons₂ _
        · rw [cursorStage_trace w]
    · rw [cursorStage_trace w]
      exact ((List.nil_sublist _).cons₂ _).cons _

theorem claudeStage_cred (w : World) :
    ∀ p ∈ (claudeStage w).2, credAvailable w p = true := by
  intro p hp
  unfold claudeStage at hp
  split at hp
  · simp at hp
  · rename_i akey heq
    split at hp
    · rename_i htr
      split at hp
      · simp at hp
        subst hp
        simp [credAvailable, heq, htr]
      · split at hp
        · simp at hp
          subst hp
          simp [credAvailable, heq, htr]
        · rw [cursorStage_trace w] at hp
          simp at hp
          rcases hp with rfl | rfl
          · simp [credAvailable, heq, htr]
          · rfl
    · rw [cursorStage_trace w] at hp
      simp at hp
      subst hp
      rfl

theorem claudeStage_succ (w : World) :
    ∀ p ∈ (claudeStage w).2, truthyOpt (rawOutput w p) = true →
      (claudeStage w).2.getLast? = some p ∧
      (claudeStage w).1 = .ok ((rawOutput w p).map clean_ai_response) := by
  intro p hp htruthy
  unfold claudeStage at hp ⊢
  split at hp
  · simp at hp
  · split at hp
    · rename_i htr
      rw [if_pos htr]
      split at hp
      · rename_i e himp
        simp at hp
        subst hp
        exfalso
        have hraw : rawOutput w Provider.claude = none := by
          unfold rawOutput
          rw [himp]
        rw [hraw] at htruthy
        exact Bool.noConfusion htruthy
      · rename_i res hok
        have hraw : rawOutput w Provider.claude = res := by
          unfold rawOutput
          rw [hok]
        split at hp
        · rename_i ans htp
          simp at hp
          subst hp
          simp only [htp]
          refine ⟨rfl, ?_⟩
          show Except.ok (some ans) =
            .ok ((rawOutput w Provider.claude).map clean_ai_response)
          rw [hraw] at htruthy ⊢
          rw [← tryProvider_eq_map res htruthy, htp]
        · rename_i htp
          simp only [htp]
          simp only [] at hp
          rw [List.mem_cons] at hp
          rcases hp with rfl | hp
          · exfalso
            have hfalse := (tryProvider_eq_none_iff _).mp htp
            rw [hraw] at htruthy
            rw [htruthy] at hfalse
            exact Bool.noConfusion hfalse
          · rw [cursorStage_trace w] at hp
            simp at hp
            subst hp
            refine ⟨?_, ?_⟩
            · show (Provider.claude :: (cursorStage w).2).getLast? =
                some Provider.cursor
              rw [cursorStage_trace w]
              rfl
            · show (cursorStage w).1 = _
              rw [cursorStage_result w]
              exact congrArg Except.ok (tryProvider_eq_map _ htruthy)
    · rename_i htr
      rw [if_neg htr]
      rw [cursorStage_trace w] at hp
      simp at hp
      subst hp
      refine ⟨?_, ?_⟩
      · rw [cursorStage_trace w]
        rfl
      · rw [cursorStage_result w]
        exact congrArg Except.ok (tryProvider_eq_map _ htruthy)

theorem claudeStage_skip (w : World) (akey : Option String)
    (heq : get_anthropic_api_key w.anthropicEnv w.anthropicKeychain = .ok akey)
    (htr : truthyOpt akey = false) : claudeStage w = cursorStage w := by
  unfold claudeStage
  rw [heq]
  simp [htr]

theorem generateCommentTrace_sublist (w : World) :
    (generateCommentTrace w).2.Sublist
      [Provider.openai, Provider.claude, Provider.cursor] := by
  unfold generateCommentTrace
  split
  · simp
  · split
    · split
      · exact (List.nil_sublist _).cons₂ _
      · split
        · exact (List.nil_sublist _).cons₂ _
        · exact (claudeStage_sublist w).cons₂ _
    · exact (claudeStage_sublist w).cons _

theorem generateCommentTrace_cred (w : World) :
    ∀ p ∈ (generateCommentTrace w).2, credAvailable w p = true := by
  intro p hp
  unfold generateCommentTrace at hp
  split at hp
  · simp at hp
  · rename_i okey heq
    split at hp
    · rename_i htr
      split at hp
      · simp at hp
        subst hp
        simp [credAvailable, heq, htr]
      · split at hp
        · simp at hp
          subst hp
          simp [credAvailable, heq, htr]
        · simp only [] at hp
          rw [List.mem_cons] at hp
          rcases hp with rfl | hp
          · simp [credAvailable, heq, htr]
          · exact claudeStage_cred w p hp
    · exact claudeStage_cred w p hp

theorem generateCommentTrace_succ (w : World) :
    ∀ p ∈ (generateCommentTrace w).2, truthyOpt (rawOutput w p) = true →
      (generateCommentTrace w).2.getLast? = some p ∧
      (generateCommentTrace w).1 = .ok ((rawOutput w p).map clean_ai_response) := by
  intro p hp htruthy
  unfold generateCommentTrace at hp ⊢
  split at hp
  · simp at hp
  · split at hp
    · rename_i htr
      rw [if_pos htr]
      split at hp
      · rename_i e himp
        simp at hp
        subst hp
        exfalso
        have hraw : rawOutput w Provider.openai = none := by
          unfold rawOutput
          rw [himp]
        rw [hraw] at htruthy
        exact Bool.noConfusion htruthy
      · rename_i res hok
        have hraw : rawOutput w Provider.openai = res := by
          unfold rawOutput
          rw [hok]
        split at hp
        · rename_i ans htp
          simp at hp
          subst hp
          simp only [htp]
          refine ⟨rfl, ?_⟩
          show Except.ok (some ans) =
            .ok ((rawOutput w Provider.openai).map clean_ai_response)
          rw [hraw] at htruthy ⊢
          rw [← tryProvider_eq_map res htruthy, htp]
        · rename_i htp
          simp only [htp]
          simp only [] at hp
          rw [List.mem_cons] at hp
          rcases hp with rfl | hp
          · exfalso
            have hfalse := (tryProvider_eq_none_iff _).mp htp
            rw [hraw] at htruthy
            rw [htruthy] at hfalse
            exact Bool.noConfusion hfalse
          · obtain ⟨hlast, hres⟩ := claudeStage_succ w p hp htruthy
            refine ⟨?_, ?_⟩
            · show (Provider.openai :: (claudeStage w).2).getLast? = some p
              cases htail : (claudeStage w).2 with
              | nil => rw [htail] at hlast; simp at hlast
              | cons q qs =>
                rw [List.getLast?_cons_cons, ← htail]
                exact hlast
            · exact hres
    · rename_i htr
      rw [if_neg htr]
      exact claudeStage_succ w p hp htruthy

theorem generateCommentTrace_skip_openai (w : World) (okey : Option String)
    (heq : get_openai_api_key w.openaiEnv w.openaiKeychain = .ok okey)
    (htr : truthyOpt okey = false) : generateCommentTrace w = claudeStage w := by
  unfold generateCommentTrace
  rw [heq]
  simp [htr]

/-- C1: for every world of credential-resolution and adapter outcomes, the
orchestrator attempts providers strictly in the fixed priority order
OpenAI, Claude, cursor-agent (the invocation trace is an in-order sublist
of that list); it never invokes a provider whose credential resolution did
not yield a truthy key; whenever an invoked provider produced a truthy raw
result, that provider is the last one invoked and the orchestrator returns
its sanitized output immediately; and an absent credential merely skips
that provider, leaving the run equal to the run starting at the next
provider. -/
theorem c1_orchestrator_priority_order (w : World) :
    (generateCommentTrace w).2.Sublist
      [Provider.openai, Provider.claude, Provider.cursor] ∧
    (∀ p ∈ (generateCommentTrace w).2, credAvailable w p = true) ∧
    (∀ p ∈ (generateCommentTrace w).2, truthyOpt (rawOutput w p) = true →
      (generateCommentTrace w).2.getLast? = some p ∧
      (generateCommentTrace w).1 = .ok ((rawOutput w p).map clean_ai_response)) ∧
    (∀ okey, get_openai_api_key w.openaiEnv w.openaiKeychain = .ok okey →
      truthyOpt okey = false → generateCommentTrace w = claudeStage w) ∧
    (∀ akey, get_anthropic_api_key w.anthropicEnv w.anthropicKeychain = .ok akey →
      truthyOpt akey = false → claudeStage w = cursorStage w) :=
  ⟨generateCommentTrace_sublist w, generateCommentTrace_cred w,
   generateCommentTrace_succ w,
   fun okey heq htr => generateCommentTrace_skip_openai w okey heq htr,
   fun akey heq htr => claudeStage_skip w akey heq htr⟩

/-- Witness for C1: a concrete world where the OpenAI key is present and the
OpenAI call succeeds; the trace is exactly `[openai]` and the sanitized
OpenAI output is returned. -/
theorem c1_orchestrator_priority_order_witness :
    (generateCommentTrace
        ⟨some "sk-test", KeychainOutcome.calledProcessError, none,
         KeychainOutcome.calledProcessError, RequestsImport.ok,
         HttpOutcome.response 200 "Hey team, shipped the fix.",
         HttpOutcome.timeout, CursorOutcome.notFound⟩).2.getLast? =
      some Provider.openai ∧
    (generateCommentTrace
        ⟨some "sk-test", KeychainOutcome.calledProcessError, none,
         KeychainOutcome.calledProcessError, RequestsImport.ok,
         HttpOutcome.response 200 "Hey team, shipped the fix.",
         HttpOutcome.timeout, CursorOutcome.notFound⟩).1 =
      .ok ((rawOutput
        ⟨some "sk-test", KeychainOutcome.calledProcessError, none,
         KeychainOutcome.calledProcessError, RequestsImport.ok,
         HttpOutcome.response 200 "Hey team, shipped the fix.",
         HttpOutcome.timeout, CursorOutcome.notFound⟩
        Provider.openai).map clean_ai_response) := by
  obtain ⟨-, -, hsucc, -, -⟩ := c1_orchestrator_priority_order
    ⟨some "sk-test", KeychainOutcome.calledProcessError, none,
     KeychainOutcome.calledProcessError, RequestsImport.ok,
     HttpOutcome.response 200 "Hey team, shipped the fix.",
     HttpOutcome.timeout, CursorOutcome.notFound⟩
  exact hsucc Provider.openai (by decide) (by decide)

theorem tryProvider_some_ne_empty (r : Option String) (a : String)
    (h : tryProvider r = some a) : a ≠ "" := by
  cases r with
  | none => simp [tryProvider] at h
  | some c =>
    by_cases hc : c = ""
    · simp [tryProvider, hc] at h
    · simp [tryProvider, hc] at h
      rw [← h]
      exact clean_ne_empty_of_ne_empty c hc

theorem cursorStage_ok_ne (w : World) (c : String)
    (h : (cursorStage w).1 = .ok (some c)) : c ≠ "" := by
  rw [cursorStage_result w] at h
  exact tryProvider_some_ne_empty _ c (Except.ok.inj h)

theorem claudeStage_ok_ne (w : World) (c : String) :
    (claudeStage w).1 = .ok (some c) → c ≠ "" := by
  unfold claudeStage
  split
  · intro h
    simp at h
  · split
    · split
      · intro h
        simp at h
      · split
        · rename_i ans htp
          intro h
          simp at h
          subst h
          exact tryProvider_some_ne_empty _ _ htp
        · intro h
          exact cursorStage_ok_ne w c h
    · exact cursorStage_ok_ne w c

theorem generate_comment_ok_ne (w : World) (c : String) :
    generate_comment w = .ok (some c) → c ≠ "" := by
  unfold generate_comment generateCommentTrace
  split
  · intro h
    simp at h
  · split
    · split
      · intro h
        simp at h
      · split
        · rename_i ans htp
          intro h
          simp at h
          subst h
          exact tryProvider_some_ne_empty _ _ htp
        · intro h
          exact claudeStage_ok_ne w c h
    · exact claudeStage_ok_ne w c

/-- C9: the sanitizer maps non-empty input to non-empty output, and
consequently every success value returned by the orchestrator is a
non-empty string. -/
theorem c9_success_values_nonempty :
    (∀ s, s ≠ "" → clean_ai_response s ≠ "") ∧
    (∀ w c, generate_comment w = .ok (some c) → c ≠ "") :=
  ⟨clean_ne_empty_of_ne_empty, generate_comment_ok_ne⟩

/-- Witness for C9 at a concrete string and a concrete successful run. -/
theorem c9_success_values_nonempty_witness :
    clean_ai_response "ok then" ≠ "" ∧
    "Hey team, done with the cleanup." ≠ "" := by
  obtain ⟨h1, h2⟩ := c9_success_values_nonempty
  refine ⟨h1 "ok then" (by decide), ?_⟩
  exact h2
    ⟨none, KeychainOutcome.calledProcessError, some "ant-key",
     KeychainOutcome.calledProcessError, RequestsImport.ok, HttpOutcome.timeout,
     HttpOutcome.response 200 "Hey team, done with the cleanup.",
     CursorOutcome.notFound⟩
    "Hey team, done with the cleanup." rfl

/-! ### Prompt builder (`build_natural_prompt`, source lines 195-274)

`commit_info` is a Python dict (from CLI flags or a JSON document); fields
are read with `commit_info.get(key, default)`, so a `CommitDict` records
each key as present (`some`) or absent (`none`).  The `author` and `date`
keys are read by the source (lines 206-207) but never interpolated into
the template, so they do not influence the prompt. -/

structure CommitDict where
  message : Option String
  sha : Option String
  branch : Option String
  author : Option String
  date : Option String
  url : Option String
  diff_summary : Option String
  ticket_details : Option String
  files_changed : Option Int
deriving DecidableEq

/-- The template up to and including the `- Commit link:` line and its
newline (source lines 214-223, interpolating message, sha, branch,
files_changed and url). -/
def prompt_context_part (d : CommitDict) : String :=
  "CRITICAL INSTRUCTION: Output ONLY the Jira comment text itself. Do NOT include any meta-commentary, explanations, or descriptions about what you\x27re writing. Your output will be posted directly to Jira.\n\nWrite an informal Jira comment update from a developer who just completed a task. Write it like you\x27re explaining what you did to your team lead or project manager - casual, conversational, but still professional.\n\nCONTEXT:\n- Commit: "
  ++ d.message.getD ""
  ++ "\n- SHA: "
  ++ d.sha.getD ""
  ++ "\n- Branch: "
  ++ d.branch.getD ""
  ++ "\n- Files changed: "
  ++ toString (d.files_changed.getD 0)
  ++ "\n- Commit link: "
  ++ d.url.getD ""
  ++ "\n"

/-- The conditional ticket line (source line 224):
`\x7b"- Ticket context: " + ticket_details if ticket_details else ""\x7d`. -/
def prompt_ticket_part (d : CommitDict) : String :=
  if d.ticket_details.getD "" = "" then ""
  else "- Ticket context: " ++ d.ticket_details.getD ""

/-- The rest of the template (source lines 225-272, interpolating
diff_summary and, inside the worked example, url again). -/
def prompt_tail_part (d : CommitDict) : String :=
  "\n\nCODE CHANGES:\n"
  ++ d.diff_summary.getD ""
  ++ "\n\nIMPORTANT STYLE GUIDELINES:\n1. Write in FIRST PERSON (\"I completed\", \"I fixed\", \"I updated\") - like a developer writing their own update\n2. Be CASUAL and CONVERSATIONAL - use contractions, natural language, avoid formal structure\n3. Sound HUMAN - vary your sentence structure, use natural transitions\n4. Be BRIEF but informative - don\x27t over-explain\n5. Use simple markdown (**, -, bullets) - NO fancy formatting\n6. Include practical details that matter for testing\n7. DON\x27T use section headers like \"Summary:\", \"Issue:\", etc. - just write naturally\n8. Start with a brief statement like \"Hey team, I\x27ve completed the [task name]\" or \"Done with [task]\" or similar\n\nREQUIRED CONTENT (but write it naturally, not as sections):\n1. Brief intro saying you completed the task\n2. What the issue/requirement was (in plain terms)\n3. What you fixed/changed (technical but in layman terms - explain WHAT you did, not just HOW)\n4. Link to commit\n5. How to test it (practical steps)\n6. Any additional notes (edge cases, things to watch, etc.)\n\nEXAMPLE TONE (adapt to the actual commit):\n\"Hey team, just finished up the user authentication task.\n\nThe issue was that users were getting logged out randomly when switching between tabs. Turned out the session token wasn\x27t being refreshed properly.\n\nHere\x27s what I fixed:\n- Updated the token refresh logic to check expiry every 5 minutes instead of just on page load\n- Added a background service that keeps the session alive as long as the user is active\n- Fixed a race condition where multiple tabs could trigger conflicting refresh requests\n\nCommit: "
  ++ d.url.getD ""
  ++ "\n\nTo test this:\n1. Log in to the app\n2. Open it in multiple tabs\n3. Leave it idle for 10-15 minutes, then try to do something (like click on a button)\n4. You should stay logged in and everything should work normally\n5. Also try switching between tabs rapidly - no weird logout behavior\n\nWatch out for:\n- The background service runs every 5 mins, so it might take a bit to see the effect\n- If you\x27re testing with a dev account, make sure the token expiry is set to something reasonable (not 1 year!)\n\nLet me know if you see any issues!\"\n\nREMEMBER: Output ONLY the comment text. Start directly with something like \"Hey team\" or \"Done with\". Do NOT write things like \"Here\x27s the comment:\" or \"The comment is ready\" or any other meta-text. Your output will be posted directly to Jira."

/-- `build_natural_prompt` (source lines 195-274): the three template
segments concatenated. -/
def build_natural_prompt (d : CommitDict) : String :=
  prompt_context_part d ++ prompt_ticket_part d ++ prompt_tail_part d

theorem data_append (a b : String) : (a ++ b).data = a.data ++ b.data := rfl

theorem string_append_data_nil (a b : String) (h : (a ++ b).data = []) :
    a.data = [] := by
  rw [data_append] at h
  exact (List.append_eq_nil.mp h).1

theorem containsSub_append_left (pat x h : List Char)
    (hc : containsSub pat h = true) : containsSub pat (x ++ h) = true := by
  induction x with
  | nil => simpa using hc
  | cons c t ih =>
    simp only [List.cons_append, containsSub, List.append_eq]
    rw [ih]
    simp

theorem containsSub_of_prefix (pat h : List Char) (hp : pat <+: h) :
    containsSub pat h = true := by
  cases h with
  | nil =>
    have hnil : pat = [] := List.prefix_nil.mp hp
    subst hnil
    rfl
  | cons c t =>
    simp only [containsSub]
    rw [List.isPrefixOf_iff_prefix.mpr hp]
    simp

set_option maxRecDepth 20000 in
/-- Counterexample to C4 as stated: the claim says no line is emitted for an
optional field whose value is empty, but with an absent commit url the
prompt still contains the full line `- Commit link: ` (source line 223
interpolates `commit_url` unconditionally). -/
theorem c4_counterexample_commit_link_line_with_empty_url :
    (⟨some "fix login bug", none, none, none, none, none, none, some "",
        some 3⟩ : CommitDict).url.getD "" = "" ∧
    "- Commit link: " ∈ pySplitNl (build_natural_prompt
      ⟨some "fix login bug", none, none, none, none, none, none, some "",
       some 3⟩) :=
  ⟨rfl, by decide⟩

set_option maxRecDepth 100000 in
/-- C4 amended: only `ticket_details` is conditionally included — the
`- Ticket context: ` line appears exactly when `ticket_details` is
non-empty, while `commit url` and `diff_summary` are interpolated
unconditionally so their lines appear even when empty.  Concretely, on the
scenario input (message "fix login bug", 3 files changed, empty
ticket_details, all other fields absent) no line of the prompt mentions
"Ticket context", the prompt contains "Files changed: 3", and the empty-url
"- Commit link: " line is present. -/
theorem c4_ticket_line_conditional (d : CommitDict) (t : String) :
    (d.ticket_details = some t → t ≠ "" →
      containsSub "- Ticket context: ".data (build_natural_prompt d).data = true) ∧
    (∀ l ∈ pySplitNl (build_natural_prompt
        ⟨some "fix login bug", none, none, none, none, none, none, some "",
         some 3⟩), containsSub "Ticket context".data l.data = false) ∧
    "- Commit link: " ∈ pySplitNl (build_natural_prompt
      ⟨some "fix login bug", none, none, none, none, none, none, some "",
       some 3⟩) ∧
    containsSub "Files changed: 3".data (build_natural_prompt
      ⟨some "fix login bug", none, none, none, none, none, none, some "",
       some 3⟩).data = true := by
  refine ⟨fun hd ht => ?_, by decide, by decide, by decide⟩
  have htick : prompt_ticket_part d = "- Ticket context: " ++ t := by
    unfold prompt_ticket_part
    rw [hd]
    simp [ht]
  unfold build_natural_prompt
  rw [htick]
  simp only [data_append, List.append_assoc]
  apply containsSub_append_left
  exact containsSub_of_prefix _ _ (List.prefix_append _ _)

/-- Witness for the amended C4 at a concrete non-empty ticket value. -/
theorem c4_ticket_line_conditional_witness :
    containsSub "- Ticket context: ".data
      (build_natural_prompt
        ⟨some "fix login bug", none, none, none, none, none, none,
         some "PROJ-1 login keeps dropping", some 3⟩).data = true := by
  obtain ⟨h1, -, -, -⟩ := c4_ticket_line_conditional
    ⟨some "fix login bug", none, none, none, none, none, none,
     some "PROJ-1 login keeps dropping", some 3⟩
    "PROJ-1 login keeps dropping"
  exact h1 rfl (by decide)

/-- C10: `build_natural_prompt` is total over any input dictionary — every
absent string field behaves as the empty string and an absent
`files_changed` as 0 (the prompt equals the one built from the explicitly
defaulted dictionary), and the resulting prompt is never the empty
string. -/
theorem c10_build_total_with_defaults (d : CommitDict) :
    build_natural_prompt d =
      build_natural_prompt
        ⟨some (d.message.getD ""), some (d.sha.getD ""), some (d.branch.getD ""),
         some (d.author.getD ""), some (d.date.getD ""), some (d.url.getD ""),
         some (d.diff_summary.getD ""), some (d.ticket_details.getD ""),
         some (d.files_changed.getD 0)⟩ ∧
    (build_natural_prompt d).data ≠ [] := by
  refine ⟨rfl, ?_⟩
  intro h
  unfold build_natural_prompt at h
  have h1 := string_append_data_nil _ _ h
  have h2 := string_append_data_nil _ _ h1
  unfold prompt_context_part at h2
  have h3 := string_append_data_nil _ _ h2
  have h4 := string_append_data_nil _ _ h3
  have h5 := string_append_data_nil _ _ h4
  have h6 := string_append_data_nil _ _ h5
  have h7 := string_append_data_nil _ _ h6
  have h8 := string_append_data_nil _ _ h7
  have h9 := string_append_data_nil _ _ h8
  have h10 := string_append_data_nil _ _ h9
  have h11 := string_append_data_nil _ _ h10
  have h12 := string_append_data_nil _ _ h11
  exact absurd h12 (by decide)

/-- Witness for C10 at the empty dictionary. -/
theorem c10_build_total_with_defaults_witness :
    build_natural_prompt ⟨none, none, none, none, none, none, none, none, none⟩ =
      build_natural_prompt
        ⟨some "", some "", some "", some "", some "", some "", some "",
         some "", some 0⟩ ∧
    (build_natural_prompt
      ⟨none, none, none, none, none, none, none, none, none⟩).data ≠ [] :=
  c10_build_total_with_defaults ⟨none, none, none, none, none, none, none, none, none⟩

end GitQuick
